import Mathlib

/-!
Verification development for the Crypto-operations-opt repository.

The repository is a pipeline of Python scripts: `02_crear_datos.py` generates
simulated users and transactions and loads them into PostgreSQL,
`03_ejecutar_analisis_sql.py` runs SQL analysis queries,
`05_analisis_cuellos_botella.py` labels peak hours, and
`06_optimizacion_batch_processing.py` contains the `ValidadorAutomatico` and
`OptimizadorHoraPico` classes together with the `simular_optimizaciones`
before/after projection.

Python floats are embedded as rationals (`ℚ`), machine integers as `ℕ`/`ℤ`,
string fields as `String`, and database rows as lists.  Randomness in the data
generator is embedded as an explicit record of draws passed to the generating
function.  Database connections are embedded as an explicit
committed/pending-state record with `commit`/`rollback` operations, and a row
insertion that may raise is a function `Row → Option E` giving the exception
raised on a row, if any.
-/

namespace CryptoOps

/-! ## `06_optimizacion_batch_processing.py`: `ValidadorAutomatico` -/

/-- A transaction row as consumed by `ValidadorAutomatico.validar_transaccion`
and `OptimizadorHoraPico.asignar_prioridad` (the columns selected by the query
in `simular_optimizaciones`). -/
structure TxnRow where
  transaction_id : ℕ
  monto_usd : ℚ
  score_fraude : ℚ
  metodo_pago : String
  tiempo_procesamiento : ℚ
  requiere_validacion_manual : Bool
  nivel_verificacion : String
  hora : ℕ
deriving Repr, DecidableEq

/-- The rule set returned by `ValidadorAutomatico._cargar_reglas`. -/
structure Reglas where
  monto_maximo_auto : ℚ
  score_fraude_maximo : ℚ
  nivel_verificacion_minimo : String
  metodos_pago_permitidos : List String
  tiempo_validacion_auto : ℕ
  tiempo_validacion_manual : ℕ
deriving Repr, DecidableEq

/-- `ValidadorAutomatico._cargar_reglas`. -/
def cargar_reglas : Reglas :=
  { monto_maximo_auto := 10000
    score_fraude_maximo := 30
    nivel_verificacion_minimo := "intermedio"
    metodos_pago_permitidos := ["transferencia", "wallet_crypto"]
    tiempo_validacion_auto := 5
    tiempo_validacion_manual := 300 }

/-- The `self.stats` counter dictionary of `ValidadorAutomatico`. -/
structure Stats where
  procesadas : ℕ
  aprobadas_automaticamente : ℕ
  requieren_revision_manual : ℕ
  rechazadas_automaticamente : ℕ
  tiempo_ahorrado : ℕ
deriving Repr, DecidableEq

/-- The stats dictionary as initialised in `ValidadorAutomatico.__init__`. -/
def statsInit : Stats :=
  { procesadas := 0
    aprobadas_automaticamente := 0
    requieren_revision_manual := 0
    rechazadas_automaticamente := 0
    tiempo_ahorrado := 0 }

/-- The `motivo` string built by `validar_transaccion`; the Python f-string
formatting is embedded as a constructor tag carrying the interpolated value. -/
inductive Motivo where
  | nivelInsuficiente (nivel : String)
  | montoExcede (monto : ℚ)
  | scoreFraudeAlto (score : ℚ)
  | metodoPagoRevision (metodo : String)
  | validacionExitosa
deriving Repr, DecidableEq

/-- The result dictionary returned by `validar_transaccion`. -/
structure ResultadoValidacion where
  resultado : String
  motivo : Motivo
  tiempo : ℕ
deriving Repr, DecidableEq

/-- `ValidadorAutomatico.validar_transaccion`: four sequential rule checks,
updating `self.stats` and returning the result dictionary.  The state update
and the returned dictionary are paired. -/
def validar_transaccion (stats : Stats) (txn : TxnRow) :
    Stats × ResultadoValidacion :=
  let stats := { stats with procesadas := stats.procesadas + 1 }
  -- Regla 0: Nivel de verificación
  let niveles_seguros := ["intermedio", "completo"]
  if txn.nivel_verificacion ∉ niveles_seguros then
    ({ stats with
        requieren_revision_manual := stats.requieren_revision_manual + 1 },
     { resultado := "revision_manual"
       motivo := .nivelInsuficiente txn.nivel_verificacion
       tiempo := cargar_reglas.tiempo_validacion_manual })
  -- Regla 1: Monto
  else if txn.monto_usd > cargar_reglas.monto_maximo_auto then
    ({ stats with
        requieren_revision_manual := stats.requieren_revision_manual + 1 },
     { resultado := "revision_manual"
       motivo := .montoExcede txn.monto_usd
       tiempo := cargar_reglas.tiempo_validacion_manual })
  -- Regla 2: Score de fraude
  else if txn.score_fraude > cargar_reglas.score_fraude_maximo then
    ({ stats with
        requieren_revision_manual := stats.requieren_revision_manual + 1 },
     { resultado := "revision_manual"
       motivo := .scoreFraudeAlto txn.score_fraude
       tiempo := cargar_reglas.tiempo_validacion_manual })
  -- Regla 3: Método de pago
  else if txn.metodo_pago ∉ cargar_reglas.metodos_pago_permitidos then
    ({ stats with
        requieren_revision_manual := stats.requieren_revision_manual + 1 },
     { resultado := "revision_manual"
       motivo := .metodoPagoRevision txn.metodo_pago
       tiempo := cargar_reglas.tiempo_validacion_manual })
  -- Si pasa todas las reglas: APROBACIÓN AUTOMÁTICA
  else
    let tiempo_ahorrado :=
      cargar_reglas.tiempo_validacion_manual - cargar_reglas.tiempo_validacion_auto
    ({ stats with
        aprobadas_automaticamente := stats.aprobadas_automaticamente + 1
        tiempo_ahorrado := stats.tiempo_ahorrado + tiempo_ahorrado },
     { resultado := "aprobada"
       motivo := .validacionExitosa
       tiempo := cargar_reglas.tiempo_validacion_auto })

/-- `ValidadorAutomatico.procesar_lote`, restricted to its effect on
`self.stats`: folds `validar_transaccion` over the batch. -/
def procesar_lote_stats (stats : Stats) (txns : List TxnRow) : Stats :=
  txns.foldl (fun s txn => (validar_transaccion s txn).1) stats

/-! ## `06_optimizacion_batch_processing.py`: `OptimizadorHoraPico` -/

/-- `OptimizadorHoraPico.asignar_prioridad`. -/
def asignar_prioridad (txn : TxnRow) : String :=
  -- Alta prioridad: montos altos, usuarios premium
  if txn.monto_usd > 5000 ∨ txn.nivel_verificacion = "completo" then
    "alta_prioridad"
  -- Baja prioridad: transacciones pequeñas, usuarios básicos
  else if txn.monto_usd < 100 ∧ txn.nivel_verificacion = "basico" then
    "baja_prioridad"
  -- Normal: resto
  else
    "normal"

/-! ## `02_crear_datos.py`: transaction generation

`generar_transacciones` draws every random quantity from `random`/`np.random`;
one loop iteration is embedded as a function of an explicit record of draws.
`random.randint(a, b)` (inclusive on both ends) is embedded as `a +` a
`Fin (b - a + 1)` draw, `random.uniform(a, b)` as `a + (b - a) * u` for a
rational draw `u` (in `[0, 1]` for an actual run), `np.random.choice(xs, p)`
as indexing `xs` by a `Fin xs.length` draw, and
`int(np.random.normal(base, 20))` as `base +` an unconstrained integer noise
draw.  Fields built by `faker` (hash, ip, user agent, device) and the
timestamp fields other than the hour are not used by any claim and are left
out of the embedded record. -/

/-- A generated user, restricted to the fields `generar_transacciones`
reads. -/
structure Usuario where
  user_id : ℕ
  nivel_verificacion : String
deriving Repr, DecidableEq

/-- The `tipos_operacion` list of `generar_transacciones`. -/
def tipos_operacion : List String := ["compra", "venta", "swap", "retiro"]

/-- The `criptos` list of `generar_transacciones`. -/
def criptos : List String := ["BTC", "ETH", "USDT", "USDC", "BNB", "ADA", "SOL"]

/-- The `metodos_pago` list of `generar_transacciones`. -/
def metodos_pago : List String := ["transferencia", "tarjeta", "wallet_crypto"]

/-- The `motivos_fallo` list of `generar_transacciones`. -/
def motivos_fallo : List String :=
  ["Fondos insuficientes", "Límite diario excedido",
   "Validación de identidad fallida", "Timeout de la red blockchain",
   "Error en validación antifraude", "Método de pago rechazado"]

/-- The `precios_cripto` dictionary of `generar_transacciones` (total on the
elements of `criptos`; the default is never reached). -/
def precios_cripto : String → ℚ
  | "BTC" => 45000
  | "ETH" => 2500
  | "USDT" => 1
  | "USDC" => 1
  | "BNB" => 350
  | "ADA" => 1/2
  | "SOL" => 100
  | _ => 0

/-- `random.uniform(a, b)` at draw `u`. -/
def uniform (a b u : ℚ) : ℚ := a + (b - a) * u

/-- Python `round(x, 2)`.  Python rounds half to even while `round` here
rounds half up; no claim depends on the value at an exact half, so the
difference is immaterial. -/
def round2 (q : ℚ) : ℚ := (round (q * 100) : ℤ) / 100

/-- The `es_hora_pico` classification of `generar_transacciones`
(`hora >= 18 and hora <= 23`). -/
def es_hora_pico (hora : ℕ) : Bool := decide (hora ≥ 18) && decide (hora ≤ 23)

/-- The random draws consumed by one iteration of the transaction loop of
`generar_transacciones`. -/
structure GenDraws where
  rollHoraPico : ℚ      -- random.random() deciding the 60% peak-hour branch
  horaPico : Fin 6      -- random.randint(18, 23)
  horaUniforme : Fin 24 -- random.randint(0, 23)
  tipoIdx : Fin 4       -- np.random.choice(tipos_operacion, p=prob_operacion)
  criptoIdx : Fin 7     -- np.random.choice(criptos, p=prob_criptos)
  montoU : ℚ            -- random.uniform for monto_usd
  precioU : ℚ           -- random.uniform(0.98, 1.02)
  tiempoPico : Fin 91   -- random.randint(60, 150)
  tiempoNormal : Fin 41 -- random.randint(20, 60)
  tiempoValidacion : Fin 91 -- random.randint(30, 120)
  ruidoTiempo : ℤ       -- int(np.random.normal(tiempo_base, 20)) - tiempo_base
  rollError : ℚ         -- random.random() against tasa_base_error
  falloIdx : Fin 6      -- random.choice(motivos_fallo)
  metodoIdx : Fin 3     -- np.random.choice(metodos_pago, p=prob_metodos)
  scoreU : ℚ            -- random.uniform(0, 100)
  scoreExtraU : ℚ       -- random.uniform(10, 30)
deriving Repr, DecidableEq

/-- A generated transaction record, restricted to the fields some claim or a
later script reads.  `hora` is the hour of `timestamp_inicio`
(`fecha_base.replace(hour=hora, ...)`). -/
structure Transaccion where
  transaction_id : ℕ
  user_id : ℕ
  tipo_operacion : String
  cripto : String
  monto_usd : ℚ
  comision_usd : ℚ
  monto_total_usd : ℚ
  hora : ℕ
  tiempo_procesamiento : ℤ
  estado : String
  motivo_fallo : Option String
  requiere_validacion_manual : Bool
  metodo_pago : String
  score_fraude : ℚ
  flagged_fraude : Bool
deriving Repr, DecidableEq

/-- One iteration of the transaction loop of `generar_transacciones`:
transaction `i` for user `usuario` at draws `d`. -/
def generar_transaccion (i : ℕ) (usuario : Usuario) (d : GenDraws) :
    Transaccion :=
  -- Distribución de horas (más actividad en horario pico)
  let hora : ℕ :=
    if d.rollHoraPico < 6/10 then 18 + d.horaPico.val else d.horaUniforme.val
  -- Tipo de operación y cripto
  let tipo_operacion := tipos_operacion.get ⟨d.tipoIdx.val, d.tipoIdx.isLt⟩
  let cripto := criptos.get ⟨d.criptoIdx.val, d.criptoIdx.isLt⟩
  -- Monto según nivel de verificación
  let monto_usd : ℚ :=
    if usuario.nivel_verificacion = "basico" then round2 (uniform 10 1000 d.montoU)
    else if usuario.nivel_verificacion = "intermedio" then
      round2 (uniform 100 5000 d.montoU)
    else round2 (uniform 500 20000 d.montoU)
  -- Comisión (0.5%)
  let comision_usd := round2 (monto_usd * (5/1000))
  let monto_total_usd := monto_usd + comision_usd
  -- Tiempo de procesamiento
  let pico := es_hora_pico hora
  let requiere_validacion : Bool := decide (monto_usd > 5000)
  let tiempo_base : ℕ :=
    if pico then 60 + d.tiempoPico.val else 20 + d.tiempoNormal.val
  let tiempo_base :=
    if requiere_validacion then tiempo_base + (30 + d.tiempoValidacion.val)
    else tiempo_base
  let tiempo_procesamiento : ℤ := max 10 ((tiempo_base : ℤ) + d.ruidoTiempo)
  -- Estado de la transacción
  let tasa_base_error : ℚ := 5/100
  let tasa_base_error := if pico then tasa_base_error + 10/100 else tasa_base_error
  let tasa_base_error :=
    if requiere_validacion then tasa_base_error + 5/100 else tasa_base_error
  let estado := if d.rollError < tasa_base_error then "fallida" else "exitosa"
  let motivo_fallo :=
    if d.rollError < tasa_base_error then
      some (motivos_fallo.get ⟨d.falloIdx.val, d.falloIdx.isLt⟩)
    else none
  -- Score de fraude
  let score_fraude := uniform 0 100 d.scoreU
  let score_fraude :=
    if monto_usd > 10000 then min 100 (score_fraude + uniform 10 30 d.scoreExtraU)
    else score_fraude
  let flagged_fraude : Bool := decide (score_fraude > 75)
  { transaction_id := i
    user_id := usuario.user_id
    tipo_operacion := tipo_operacion
    cripto := cripto
    monto_usd := monto_usd
    comision_usd := comision_usd
    monto_total_usd := monto_total_usd
    hora := hora
    tiempo_procesamiento := tiempo_procesamiento
    estado := estado
    motivo_fallo := motivo_fallo
    requiere_validacion_manual := requiere_validacion
    metodo_pago := metodos_pago.get ⟨d.metodoIdx.val, d.metodoIdx.isLt⟩
    score_fraude := round2 score_fraude
    flagged_fraude := flagged_fraude }

/-! ## `05_analisis_cuellos_botella.py`: the `periodo` label -/

/-- The `periodo` lambda of `05_analisis_cuellos_botella.py` line 203:
`'Hora Pico' if 18 <= x <= 23 else 'Hora Normal'`. -/
def periodo (x : ℕ) : String :=
  if 18 ≤ x ∧ x ≤ 23 then "Hora Pico" else "Hora Normal"

/-! ## `06_optimizacion_batch_processing.py`: the peak-hour filter -/

/-- `pandas.Series.between(a, b)` with the default inclusive bounds, as used
on the `hora` column. -/
def between (x a b : ℕ) : Bool := decide (a ≤ x) && decide (x ≤ b)

/-- The `txn_hora_pico = df[df['hora'].between(18, 23)]` filter of
`simular_optimizaciones`. -/
def txn_hora_pico (df : List TxnRow) : List TxnRow :=
  df.filter (fun t => between t.hora 18 23)

/-! ## `06_optimizacion_batch_processing.py`: `simular_optimizaciones`

The before/after block of `simular_optimizaciones` (lines 254-299): the
validator is run over the transactions whose `requiere_validacion_manual`
column is true, and the comparativa figures are computed from the
`tiempo_procesamiento` column and the validator's stats.  `pandas` `mean` is
sum over length (division by zero yields `0` here where `pandas` yields
`NaN`; the claims are stated for nonempty data, where the two agree). -/

/-- `pandas.Series.mean` on a rational column. -/
def seriesMean (xs : List ℚ) : ℚ := xs.sum / xs.length

/-- The before/after figures printed and saved by `simular_optimizaciones`. -/
structure Comparativa where
  tiempo_promedio_actual : ℚ
  tiempo_total_actual : ℚ
  reduccion_porcentaje : ℚ
  tiempo_promedio_optimizado : ℚ
  tiempo_total_optimizado : ℚ
  tiempo_ahorrado : ℚ
deriving Repr, DecidableEq

/-- The computational core of `simular_optimizaciones` on an already-loaded
dataframe `df`: the validator pass over `txn_con_validacion` followed by the
BEFORE/AFTER computation (lines 254-299 of
`06_optimizacion_batch_processing.py`). -/
def simular_optimizaciones (df : List TxnRow) : Comparativa :=
  let txn_con_validacion := df.filter (fun t => t.requiere_validacion_manual)
  let stats :=
    if txn_con_validacion.length > 0 then
      procesar_lote_stats statsInit txn_con_validacion
    else statsInit
  let tiempo_promedio_actual := seriesMean (df.map (·.tiempo_procesamiento))
  let tiempo_total_actual := (df.map (·.tiempo_procesamiento)).sum
  -- Reducción estimada: 22% en tiempo promedio
  let reduccion_porcentaje : ℚ := 22/100
  let reduccion_porcentaje :=
    if stats.procesadas > 0 then
      let tasa_auto : ℚ :=
        (stats.aprobadas_automaticamente : ℚ) / (stats.procesadas : ℚ) * 100
      -- Base 15% + bonus por auto
      15/100 + (tasa_auto / 100 * (20/100))
    else reduccion_porcentaje
  let tiempo_promedio_optimizado := tiempo_promedio_actual * (1 - reduccion_porcentaje)
  let tiempo_total_optimizado := tiempo_total_actual * (1 - reduccion_porcentaje)
  { tiempo_promedio_actual := tiempo_promedio_actual
    tiempo_total_actual := tiempo_total_actual
    reduccion_porcentaje := reduccion_porcentaje
    tiempo_promedio_optimizado := tiempo_promedio_optimizado
    tiempo_total_optimizado := tiempo_total_optimizado
    tiempo_ahorrado := tiempo_total_actual - tiempo_total_optimizado }

/-! ## `02_crear_datos.py`: database loading

A `psycopg2` connection is embedded as the pair of the committed table
contents and the uncommitted rows of the open transaction.  Inserting a row
may raise; which rows raise is an explicit parameter `ins : Row → Option E`
(`ins r = some e` means inserting `r` raises exception `e`).
`execute_batch` inserts rows one at a time into the open transaction and
stops at the first raising row; `commit` moves pending rows into the table;
`rollback` discards them.  The `print` calls of the loaders are embedded as
an output log. -/

/-- A database connection: committed table contents plus the uncommitted rows
of the open transaction. -/
structure PgConn (Row : Type) where
  committed : List Row
  pending : List Row
deriving Repr, DecidableEq

/-- `conn.commit()`. -/
def PgConn.commit (c : PgConn Row) : PgConn Row :=
  { committed := c.committed ++ c.pending, pending := [] }

/-- `conn.rollback()`. -/
def PgConn.rollback (c : PgConn Row) : PgConn Row :=
  { committed := c.committed, pending := [] }

/-- `psycopg2.extras.execute_batch(cursor, query, datos)`: insert the rows in
order into the open transaction; on the first row whose insertion raises,
return the exception together with the connection state at that point. -/
def execute_batch (ins : Row → Option E) :
    PgConn Row → List Row → Except (E × PgConn Row) (PgConn Row)
  | c, [] => .ok c
  | c, r :: rs =>
    match ins r with
    | some e => .error (e, c)
    | none => execute_batch ins { c with pending := c.pending ++ [r] } rs

/-- A `print` call in a loader, restricted to the two messages the claims
mention: the success message and the error message of the `except` block. -/
inductive LogMsg (E : Type) where
  | insertadas (n : ℕ)
  | errorInsertar (e : E)
deriving Repr, DecidableEq

/-- `cargar_usuarios_db`: insert all rows with one `execute_batch`, commit
once at the end; on an exception, rollback, print the error and re-raise. -/
def cargar_usuarios_db (ins : Row → Option E) (c : PgConn Row)
    (datos : List Row) : Except E Unit × PgConn Row × List (LogMsg E) :=
  match execute_batch ins c datos with
  | .ok c2 => (.ok (), c2.commit, [.insertadas datos.length])
  | .error (e, c2) => (.error e, c2.rollback, [.errorInsertar e])

/-- `cargar_metricas_db`: identical control flow to `cargar_usuarios_db`
(one `execute_batch`, one final commit, catch/rollback/print/re-raise). -/
def cargar_metricas_db (ins : Row → Option E) (c : PgConn Row)
    (datos : List Row) : Except E Unit × PgConn Row × List (LogMsg E) :=
  match execute_batch ins c datos with
  | .ok c2 => (.ok (), c2.commit, [.insertadas datos.length])
  | .error (e, c2) => (.error e, c2.rollback, [.errorInsertar e])

/-- The `batch_size = 5000` of `cargar_transacciones_db`. -/
def batch_size : ℕ := 5000

/-- `datos[i:i + batch_size] for i in range(0, len(datos), batch_size)`: the
successive batches of the insertion loop of `cargar_transacciones_db`. -/
def lotes : List Row → List (List Row)
  | [] => []
  | x :: xs => ((x :: xs).take batch_size) :: lotes ((x :: xs).drop batch_size)
termination_by datos => datos.length
decreasing_by
  simp only [batch_size, List.length_drop, List.length_cons]
  omega

/-- The `for i in tqdm(range(0, len(datos), batch_size))` loop body of
`cargar_transacciones_db`: `execute_batch` then `conn.commit()` per batch,
propagating the first exception. -/
def cargar_lotes (ins : Row → Option E) (c : PgConn Row) :
    List (List Row) → Except (E × PgConn Row) (PgConn Row)
  | [] => .ok c
  | b :: bs =>
    match execute_batch ins c b with
    | .ok c2 => cargar_lotes ins c2.commit bs
    | .error p => .error p

/-- `cargar_transacciones_db`: insert in batches of `batch_size = 5000`,
committing after every batch; on an exception, rollback, print the error and
re-raise. -/
def cargar_transacciones_db (ins : Row → Option E) (c : PgConn Row)
    (datos : List Row) : Except E Unit × PgConn Row × List (LogMsg E) :=
  match cargar_lotes ins c (lotes datos) with
  | .ok c2 => (.ok (), c2, [.insertadas datos.length])
  | .error (e, c2) => (.error e, c2.rollback, [.errorInsertar e])

/-! ## `03_ejecutar_analisis_sql.py`

The five SQL queries of `main` are embedded as their literal text (single
quotes written with the `\x27` escape).  A SQL statement whose first
non-whitespace token is `SELECT` only reads the database; the engine is
embedded as a state transformer that leaves the database untouched on a
`SELECT` and may apply an arbitrary update `eff` on anything else. -/

/-- `cs` starts with the characters `p`. -/
def empiezaCon : List Char → List Char → Bool
  | [], _ => true
  | _ :: _, [] => false
  | p :: ps, c :: cs => p == c && empiezaCon ps cs

/-- The statement text begins (after whitespace) with the keyword `SELECT`. -/
def esSelect (q : String) : Bool :=
  empiezaCon "SELECT".toList (q.toList.dropWhile Char.isWhitespace)

/-- Query 1: Overview general. -/
def query1 : String :=
  "\n        SELECT \n            COUNT(*) as total_transacciones,\n            COUNT(DISTINCT user_id) as usuarios_activos,\n            COUNT(CASE WHEN estado = \x27exitosa\x27 THEN 1 END) as transacciones_exitosas,\n            COUNT(CASE WHEN estado = \x27fallida\x27 THEN 1 END) as transacciones_fallidas,\n            ROUND(COUNT(CASE WHEN estado = \x27fallida\x27 THEN 1 END) * 100.0 / COUNT(*), 2) as tasa_error_pct,\n            SUM(CASE WHEN estado = \x27exitosa\x27 THEN monto_usd ELSE 0 END) as volumen_total_usd,\n            ROUND(AVG(CASE WHEN estado = \x27exitosa\x27 THEN monto_usd END), 2) as ticket_promedio_usd,\n            ROUND(AVG(CASE WHEN estado = \x27exitosa\x27 THEN tiempo_procesamiento END), 2) as tiempo_promedio_seg\n        FROM transacciones;\n        "

/-- Query 2: Análisis por hora. -/
def query2 : String :=
  "\n        SELECT \n            EXTRACT(HOUR FROM timestamp_inicio) as hora_del_dia,\n            COUNT(*) as num_transacciones,\n            ROUND(AVG(tiempo_procesamiento), 2) as tiempo_promedio_seg,\n            ROUND(PERCENTILE_CONT(0.95) WITHIN GROUP (ORDER BY tiempo_procesamiento), 2) as tiempo_p95_seg,\n            COUNT(CASE WHEN estado = \x27fallida\x27 THEN 1 END) * 100.0 / COUNT(*) as tasa_error_pct\n        FROM transacciones\n        WHERE estado IN (\x27exitosa\x27, \x27fallida\x27)\n        GROUP BY EXTRACT(HOUR FROM timestamp_inicio)\n        ORDER BY hora_del_dia;\n        "

/-- Query 3: Transacciones lentas. -/
def query3 : String :=
  "\n        SELECT \n            transaction_id,\n            user_id,\n            tipo_operacion,\n            cripto,\n            monto_usd,\n            tiempo_procesamiento,\n            timestamp_inicio,\n            estado,\n            requiere_validacion_manual\n        FROM transacciones\n        WHERE tiempo_procesamiento > 300\n        ORDER BY tiempo_procesamiento DESC\n        LIMIT 100;\n        "

/-- Query 4: Performance por cripto. -/
def query4 : String :=
  "\n        SELECT \n            cripto,\n            COUNT(*) as num_transacciones,\n            SUM(CASE WHEN estado = \x27exitosa\x27 THEN monto_usd ELSE 0 END) as volumen_total_usd,\n            ROUND(AVG(CASE WHEN estado = \x27exitosa\x27 THEN tiempo_procesamiento END), 2) as tiempo_promedio_seg,\n            COUNT(CASE WHEN estado = \x27fallida\x27 THEN 1 END) * 100.0 / COUNT(*) as tasa_error_pct\n        FROM transacciones\n        GROUP BY cripto\n        ORDER BY volumen_total_usd DESC;\n        "

/-- Query 5: Motivos de fallo. -/
def query5 : String :=
  "\n        SELECT \n            motivo_fallo,\n            COUNT(*) as num_fallos,\n            ROUND(COUNT(*) * 100.0 / SUM(COUNT(*)) OVER (), 2) as porcentaje\n        FROM transacciones\n        WHERE estado = \x27fallida\x27\n        GROUP BY motivo_fallo\n        ORDER BY num_fallos DESC;\n        "

/-- The five `(nombre_query, query_sql)` pairs `main` passes to
`ejecutar_query_y_exportar`, in execution order. -/
def consultas : List (String × String) :=
  [("Overview General", query1),
   ("Analisis Por Hora", query2),
   ("Transacciones Lentas", query3),
   ("Performance Por Cripto", query4),
   ("Motivos De Fallo", query5)]

/-- Executing one SQL statement against database state `db`: a `SELECT` reads
only; any other statement may update the database by an arbitrary effect
`eff`. -/
def ejecutarSql (eff : DB → String → DB) (db : DB) (q : String) : DB :=
  if esSelect q then db else eff db q

/-- `ejecutar_query_y_exportar(conn, nombre_query, query_sql)`, restricted to
its effect on the database state (the returned dataframe and the CSV export
do not touch the database). -/
def ejecutar_query_y_exportar (eff : DB → String → DB) (db : DB)
    (_nombre_query query_sql : String) : DB :=
  ejecutarSql eff db query_sql

/-- `main` of `03_ejecutar_analisis_sql.py`, restricted to its effect on the
database state: run the five queries in order. -/
def main03 (eff : DB → String → DB) (db : DB) : DB :=
  consultas.foldl (fun d nq => ejecutar_query_y_exportar eff d nq.1 nq.2) db

/-- A transaction passes all four rules of `validar_transaccion`. -/
def pasa_reglas (t : TxnRow) : Bool :=
  decide (t.nivel_verificacion ∈ (["intermedio", "completo"] : List String)) &&
  decide (t.monto_usd ≤ 10000) &&
  decide (t.score_fraude ≤ 30) &&
  decide (t.metodo_pago ∈ (["transferencia", "wallet_crypto"] : List String))

/-- A concrete row-insertion behaviour used to exercise the loaders on
explicit data: inserting row `0` succeeds, inserting any other row raises
exception `7`. -/
def insFalla : ℕ → Option ℕ := fun n => if n = 0 then none else some 7

/-! ## Theorems -/

theorem validar_transaccion_fst (s : Stats) (t : TxnRow) :
    (validar_transaccion s t).1 =
      if pasa_reglas t then
        { s with procesadas := s.procesadas + 1
                 aprobadas_automaticamente := s.aprobadas_automaticamente + 1
                 tiempo_ahorrado := s.tiempo_ahorrado + 295 }
      else
        { s with procesadas := s.procesadas + 1
                 requieren_revision_manual := s.requieren_revision_manual + 1 } := by
  by_cases h1 : t.nivel_verificacion ∈ (["intermedio", "completo"] : List String)
  · by_cases h2 : t.monto_usd ≤ 10000
    · by_cases h3 : t.score_fraude ≤ 30
      · by_cases h4 : t.metodo_pago ∈ (["transferencia", "wallet_crypto"] : List String)
        · simp [validar_transaccion, pasa_reglas, cargar_reglas, h1, h2, h3, h4,
            not_lt.mpr h2, not_lt.mpr h3]
        · simp [validar_transaccion, pasa_reglas, cargar_reglas, h1, h2, h3, h4,
            not_lt.mpr h2, not_lt.mpr h3]
      · simp [validar_transaccion, pasa_reglas, cargar_reglas, h1, h2, h3,
          not_le.mp h3, not_lt.mpr h2]
    · simp [validar_transaccion, pasa_reglas, cargar_reglas, h1, h2, not_le.mp h2]
  · simp [validar_transaccion, pasa_reglas, cargar_reglas, h1]

theorem procesar_lote_stats_eq (s : Stats) (l : List TxnRow) :
    procesar_lote_stats s l =
      { procesadas := s.procesadas + l.length
        aprobadas_automaticamente :=
          s.aprobadas_automaticamente + l.countP pasa_reglas
        requieren_revision_manual :=
          s.requieren_revision_manual + l.countP (fun t => !pasa_reglas t)
        rechazadas_automaticamente := s.rechazadas_automaticamente
        tiempo_ahorrado := s.tiempo_ahorrado + 295 * l.countP pasa_reglas } := by
  induction l generalizing s with
  | nil => simp [procesar_lote_stats]
  | cons t ts ih =>
    have hstep :
        procesar_lote_stats s (t :: ts) =
          procesar_lote_stats (validar_transaccion s t).1 ts := rfl
    rw [hstep, validar_transaccion_fst, ih]
    cases hp : pasa_reglas t <;>
      simp [hp, List.countP_cons, Stats.mk.injEq] <;> omega

/-- C9: on a freshly constructed `ValidadorAutomatico`, after any sequence of
`validar_transaccion` calls the stats satisfy `procesadas` =
`aprobadas_automaticamente` + `requieren_revision_manual`,
`rechazadas_automaticamente` is never incremented, and `tiempo_ahorrado` is
`295 = 300 - 5` seconds per automatic approval. -/
theorem validador_stats_consistentes (txns : List TxnRow) :
    (procesar_lote_stats statsInit txns).procesadas =
        (procesar_lote_stats statsInit txns).aprobadas_automaticamente +
        (procesar_lote_stats statsInit txns).requieren_revision_manual ∧
    (procesar_lote_stats statsInit txns).rechazadas_automaticamente = 0 ∧
    (procesar_lote_stats statsInit txns).tiempo_ahorrado =
        295 * (procesar_lote_stats statsInit txns).aprobadas_automaticamente := by
  rw [procesar_lote_stats_eq]
  refine ⟨?_, rfl, by simp [statsInit]⟩
  simp [statsInit]
  simpa using List.length_eq_countP_add_countP pasa_reglas txns

/-- C1: `validar_transaccion` returns `revision_manual` iff one of the four
rules fails (insufficient verification level, amount above 10000, fraud score
above 30, payment method outside transferencia/wallet_crypto), `aprobada` iff
all four pass, and the `motivo` comes from the first failing rule in the
fixed order level, amount, score, payment method. -/
theorem validar_transaccion_cuatro_reglas (s : Stats) (txn : TxnRow) :
    ((validar_transaccion s txn).2.resultado = "revision_manual" ↔
      (txn.nivel_verificacion ∉ (["intermedio", "completo"] : List String) ∨
       txn.monto_usd > 10000 ∨ txn.score_fraude > 30 ∨
       txn.metodo_pago ∉ (["transferencia", "wallet_crypto"] : List String))) ∧
    ((validar_transaccion s txn).2.resultado = "aprobada" ↔
      (txn.nivel_verificacion ∈ (["intermedio", "completo"] : List String) ∧
       txn.monto_usd ≤ 10000 ∧ txn.score_fraude ≤ 30 ∧
       txn.metodo_pago ∈ (["transferencia", "wallet_crypto"] : List String))) ∧
    ((validar_transaccion s txn).2.motivo =
      if txn.nivel_verificacion ∉ (["intermedio", "completo"] : List String) then
        .nivelInsuficiente txn.nivel_verificacion
      else if txn.monto_usd > 10000 then .montoExcede txn.monto_usd
      else if txn.score_fraude > 30 then .scoreFraudeAlto txn.score_fraude
      else if txn.metodo_pago ∉ (["transferencia", "wallet_crypto"] : List String) then
        .metodoPagoRevision txn.metodo_pago
      else .validacionExitosa) := by
  by_cases h1 : txn.nivel_verificacion ∈ (["intermedio", "completo"] : List String)
  · by_cases h2 : txn.monto_usd ≤ 10000
    · by_cases h3 : txn.score_fraude ≤ 30
      · by_cases h4 : txn.metodo_pago ∈ (["transferencia", "wallet_crypto"] : List String)
        · simp [validar_transaccion, cargar_reglas, h1, h2, h3, h4,
            not_lt.mpr h2, not_lt.mpr h3]
        · simp [validar_transaccion, cargar_reglas, h1, h2, h3, h4,
            not_lt.mpr h2, not_lt.mpr h3]
      · simp [validar_transaccion, cargar_reglas, h1, h2, h3,
          not_le.mp h3, not_lt.mpr h2]
    · simp [validar_transaccion, cargar_reglas, h1, h2, not_le.mp h2]
  · simp [validar_transaccion, cargar_reglas, h1]

/-- C6: `asignar_prioridad` always returns one of the three queue labels;
`alta_prioridad` iff the amount exceeds 5000 or the verification level is
`completo`; `baja_prioridad` iff neither holds, the amount is below 100 and
the level is `basico`; `normal` in every remaining case. -/
theorem asignar_prioridad_tres_colas (txn : TxnRow) :
    (asignar_prioridad txn = "alta_prioridad" ∨ asignar_prioridad txn = "normal" ∨
     asignar_prioridad txn = "baja_prioridad") ∧
    (asignar_prioridad txn = "alta_prioridad" ↔
      (txn.monto_usd > 5000 ∨ txn.nivel_verificacion = "completo")) ∧
    (asignar_prioridad txn = "baja_prioridad" ↔
      (¬(txn.monto_usd > 5000 ∨ txn.nivel_verificacion = "completo") ∧
       txn.monto_usd < 100 ∧ txn.nivel_verificacion = "basico")) ∧
    (asignar_prioridad txn = "normal" ↔
      (¬(txn.monto_usd > 5000 ∨ txn.nivel_verificacion = "completo") ∧
       ¬(txn.monto_usd < 100 ∧ txn.nivel_verificacion = "basico"))) := by
  simp only [asignar_prioridad]
  split_ifs <;> simp_all

/-- C4: the peak-load label is exactly the inclusive 18:00-23:00 window in
all three places: `es_hora_pico` in the data generator, the `periodo` label of
the bottleneck analysis, and the `between(18, 23)` filter building
`txn_hora_pico` in the optimizer. -/
theorem hora_pico_ventana_consistente (h : ℕ) (df : List TxnRow) (t : TxnRow) :
    (es_hora_pico h = true ↔ (18 ≤ h ∧ h ≤ 23)) ∧
    (periodo h = "Hora Pico" ↔ (18 ≤ h ∧ h ≤ 23)) ∧
    (t ∈ txn_hora_pico df ↔ (t ∈ df ∧ 18 ≤ t.hora ∧ t.hora ≤ 23)) := by
  refine ⟨?_, ?_, ?_⟩
  · simp [es_hora_pico, ge_iff_le]
  · simp only [periodo]
    split_ifs with hc <;> simp_all
  · simp [txn_hora_pico, between, List.mem_filter, and_assoc]

/-- C5: in `generar_transacciones`, the `requiere_validacion_manual` flag of
a generated transaction is true if and only if its `monto_usd` exceeds 5000;
no other part of the draw or the user influences it. -/
theorem requiere_validacion_umbral_monto (i : ℕ) (u : Usuario) (d : GenDraws) :
    ((generar_transaccion i u d).requiere_validacion_manual = true ↔
      (generar_transaccion i u d).monto_usd > 5000) := by
  simp [generar_transaccion]

/-- C7: every transaction produced by `generar_transacciones` has
`tipo_operacion` among the four simulated operation kinds `compra`, `venta`,
`swap`, `retiro`, whatever the random draws. -/
theorem tipo_operacion_cuatro_tipos (i : ℕ) (u : Usuario) (d : GenDraws) :
    (generar_transaccion i u d).tipo_operacion ∈
      (["compra", "venta", "swap", "retiro"] : List String) := by
  show _ ∈ tipos_operacion
  simp only [generar_transaccion]
  exact List.get_mem _ _ _

/-- C8: every query `main` of `03_ejecutar_analisis_sql.py` executes through
`ejecutar_query_y_exportar` is a `SELECT` statement, so a run of the script
leaves the database state unchanged, whatever write effect non-`SELECT`
statements could have had. -/
theorem analisis_sql_solo_lectura {DB : Type} (eff : DB → String → DB)
    (db : DB) :
    (∀ p ∈ consultas, esSelect p.2 = true) ∧ main03 eff db = db := by
  have hq : ∀ p ∈ consultas, esSelect p.2 = true := by decide
  refine ⟨hq, ?_⟩
  simp [main03, consultas, ejecutar_query_y_exportar, ejecutarSql,
    hq ("Overview General", query1) (by simp [consultas]),
    hq ("Analisis Por Hora", query2) (by simp [consultas]),
    hq ("Transacciones Lentas", query3) (by simp [consultas]),
    hq ("Performance Por Cripto", query4) (by simp [consultas]),
    hq ("Motivos De Fallo", query5) (by simp [consultas])]

/-- C2 (counterexample): `reduccion_porcentaje` is not a fixed hard-coded
constant independent of the input data: on a dataset with no transaction
requiring manual validation it is the default 22%, while on a dataset whose
single transaction requires validation and is auto-approved it is
15% + 100% · 20% = 35%. -/
theorem reduccion_porcentaje_depende_datos :
    (simular_optimizaciones
        [{ transaction_id := 1, monto_usd := 60, score_fraude := 10,
           metodo_pago := "tarjeta", tiempo_procesamiento := 100,
           requiere_validacion_manual := false, nivel_verificacion := "basico",
           hora := 3 }]).reduccion_porcentaje ≠
    (simular_optimizaciones
        [{ transaction_id := 2, monto_usd := 6000, score_fraude := 10,
           metodo_pago := "transferencia", tiempo_procesamiento := 100,
           requiere_validacion_manual := true,
           nivel_verificacion := "intermedio", hora := 19 }]).reduccion_porcentaje := by
  have h1 : (simular_optimizaciones
        [{ transaction_id := 1, monto_usd := 60, score_fraude := 10,
           metodo_pago := "tarjeta", tiempo_procesamiento := 100,
           requiere_validacion_manual := false, nivel_verificacion := "basico",
           hora := 3 }]).reduccion_porcentaje = 22/100 := by
    simp [simular_optimizaciones, procesar_lote_stats, validar_transaccion,
      statsInit, cargar_reglas]
  have h2 : (simular_optimizaciones
        [{ transaction_id := 2, monto_usd := 6000, score_fraude := 10,
           metodo_pago := "transferencia", tiempo_procesamiento := 100,
           requiere_validacion_manual := true,
           nivel_verificacion := "intermedio", hora := 19 }]).reduccion_porcentaje
      = 35/100 := by
    simp [simular_optimizaciones, procesar_lote_stats, validar_transaccion,
      statsInit, cargar_reglas]
    norm_num
  rw [h1, h2]
  norm_num

/-- C2 (amended): the before/after projection of `simular_optimizaciones` is
descriptive statistics times an improvement percentage —
`tiempo_promedio_optimizado` = `tiempo_promedio_actual` · (1 - r) and
`tiempo_total_optimizado` = `tiempo_total_actual` · (1 - r) — but the factor
r = `reduccion_porcentaje` is the hard-coded 22% only when no transaction
requires manual validation; otherwise it is the data-dependent
15% + (automation rate) · 20%, the automation rate being the fraction of
validation-requiring transactions that pass all four validator rules. -/
theorem simular_optimizaciones_before_after (df : List TxnRow) :
    (simular_optimizaciones df).tiempo_promedio_optimizado =
        (simular_optimizaciones df).tiempo_promedio_actual *
          (1 - (simular_optimizaciones df).reduccion_porcentaje) ∧
    (simular_optimizaciones df).tiempo_total_optimizado =
        (simular_optimizaciones df).tiempo_total_actual *
          (1 - (simular_optimizaciones df).reduccion_porcentaje) ∧
    (simular_optimizaciones df).reduccion_porcentaje =
      (if (df.filter (fun t => t.requiere_validacion_manual)).length = 0 then
        22/100
       else
        15/100 +
          ((df.filter (fun t => t.requiere_validacion_manual)).countP
              pasa_reglas : ℚ) /
            ((df.filter (fun t => t.requiere_validacion_manual)).length : ℚ) *
            (20/100)) := by
  refine ⟨rfl, rfl, ?_⟩
  rcases Nat.eq_zero_or_pos
      (df.filter (fun t => t.requiere_validacion_manual)).length with h0 | hpos
  · simp [simular_optimizaciones, h0, statsInit]
  · have hne0 :
        ((df.filter (fun t => t.requiere_validacion_manual)).length : ℚ) ≠ 0 := by
      exact_mod_cast Nat.pos_iff_ne_zero.mp hpos
    simp only [simular_optimizaciones, procesar_lote_stats_eq, statsInit,
      Nat.zero_add, hpos, Nat.pos_iff_ne_zero.mp hpos, ite_true, ite_false,
      if_true, if_false]
    field_simp
    ring

theorem execute_batch_ok (ins : Row → Option E) (c : PgConn Row)
    (rows : List Row) (h : ∀ x ∈ rows, ins x = none) :
    execute_batch ins c rows = .ok ⟨c.committed, c.pending ++ rows⟩ := by
  induction rows generalizing c with
  | nil => simp [execute_batch]
  | cons r rs ih =>
    have hr : ins r = none := h r (by simp)
    simp [execute_batch, hr, ih { c with pending := c.pending ++ [r] }
      (fun x hx => h x (by simp [hx]))]

theorem execute_batch_error (ins : Row → Option E) (e : E) (r : Row)
    (pre post : List Row) (c : PgConn Row)
    (hpre : ∀ x ∈ pre, ins x = none) (hr : ins r = some e) :
    execute_batch ins c (pre ++ r :: post) =
      .error (e, ⟨c.committed, c.pending ++ pre⟩) := by
  induction pre generalizing c with
  | nil => simp [execute_batch, hr]
  | cons p ps ih =>
    have hp : ins p = none := hpre p (by simp)
    have := ih { c with pending := c.pending ++ [p] }
      (fun x hx => hpre x (by simp [hx]))
    simpa [execute_batch, hp, List.append_assoc] using this

theorem lotes_cons (x : Row) (xs : List Row) :
    lotes (x :: xs) =
      ((x :: xs).take batch_size) :: lotes ((x :: xs).drop batch_size) := by
  rw [lotes]

theorem cargar_lotes_error_primero (ins : Row → Option E) (e : E) (r : Row)
    (pre post : List Row) (c : PgConn Row) (hc : c.pending = [])
    (hlen : pre.length < batch_size)
    (hpre : ∀ x ∈ pre, ins x = none) (hr : ins r = some e) :
    cargar_lotes ins c (lotes (pre ++ r :: post)) =
      .error (e, ⟨c.committed, pre⟩) := by
  have htake : (pre ++ r :: post).take batch_size
      = pre ++ r :: post.take (batch_size - pre.length - 1) := by
    rw [List.take_append_eq_append_take, List.take_of_length_le (le_of_lt hlen)]
    congr 1
    have hk : batch_size - pre.length = (batch_size - pre.length - 1) + 1 := by
      omega
    rw [hk]
    rfl
  obtain ⟨x, xs, hl⟩ : ∃ x xs, pre ++ r :: post = x :: xs := by
    cases hpp : pre ++ r :: post with
    | nil => simp at hpp
    | cons a as => exact ⟨a, as, rfl⟩
  rw [hl, lotes_cons, ← hl, htake]
  have hb := execute_batch_error ins e r pre
    (post.take (batch_size - pre.length - 1)) c hpre hr
  simp [cargar_lotes, hb, hc]

theorem cargar_lotes_error_eq (ins : Row → Option E) (e : E) (r : Row) :
    ∀ (n : ℕ) (pre : List Row), pre.length ≤ n →
      ∀ (post : List Row) (c : PgConn Row), c.pending = [] →
      (∀ x ∈ pre, ins x = none) → ins r = some e →
      cargar_lotes ins c (lotes (pre ++ r :: post)) =
        .error (e,
          ⟨c.committed ++ pre.take (batch_size * (pre.length / batch_size)),
           pre.drop (batch_size * (pre.length / batch_size))⟩) := by
  intro n
  induction n with
  | zero =>
    intro pre hn post c hc hpre hr
    have hpre0 : pre = [] := by
      cases pre with
      | nil => rfl
      | cons a as => simp at hn
    subst hpre0
    simpa using cargar_lotes_error_primero ins e r [] post c hc
      (by simp [batch_size]) (by simp) hr
  | succ n ih =>
    intro pre hn post c hc hpre hr
    by_cases hlen : pre.length < batch_size
    · have h0 : pre.length / batch_size = 0 := Nat.div_eq_of_lt hlen
      rw [h0]
      simpa using cargar_lotes_error_primero ins e r pre post c hc hlen hpre hr
    · push_neg at hlen
      have htake : (pre ++ r :: post).take batch_size = pre.take batch_size := by
        rw [List.take_append_eq_append_take, Nat.sub_eq_zero_of_le hlen]
        simp
      have hdrop : (pre ++ r :: post).drop batch_size
          = pre.drop batch_size ++ r :: post := by
        rw [List.drop_append_eq_append_drop, Nat.sub_eq_zero_of_le hlen]
        simp
      obtain ⟨x, xs, hl⟩ : ∃ x xs, pre ++ r :: post = x :: xs := by
        cases hpp : pre ++ r :: post with
        | nil => simp at hpp
        | cons a as => exact ⟨a, as, rfl⟩
      rw [hl, lotes_cons, ← hl, htake, hdrop]
      have hok := execute_batch_ok ins c (pre.take batch_size)
        (fun x hx => hpre x (List.mem_of_mem_take hx))
      have hih := ih (pre.drop batch_size)
        (by
          have hbs : batch_size = 5000 := rfl
          simp only [List.length_drop]
          omega) post
        ⟨c.committed ++ ([] ++ pre.take batch_size), []⟩ rfl
        (fun x hx => hpre x (List.mem_of_mem_drop hx)) hr
      simp only [cargar_lotes, hok, PgConn.commit, hc]
      have hdivsucc : pre.length / batch_size
          = (pre.drop batch_size).length / batch_size + 1 := by
        rw [List.length_drop]
        exact Nat.div_eq_sub_div (by simp [batch_size]) hlen
      have hmul : batch_size * (pre.length / batch_size)
          = batch_size +
            batch_size * ((pre.drop batch_size).length / batch_size) := by
        rw [hdivsucc, Nat.mul_add, Nat.mul_one, Nat.add_comm]
      rw [hih, hmul, List.take_add, ← List.drop_drop]
      simp [List.append_assoc]

theorem lotes_flatten_take (k : ℕ) : ∀ (l : List Row),
    ((lotes l).take k).flatten = l.take (batch_size * k) := by
  induction k with
  | zero => simp
  | succ k ih =>
    intro l
    cases l with
    | nil => simp [lotes]
    | cons x xs =>
      rw [lotes_cons, List.take_succ_cons, List.flatten_cons, ih]
      have hm : batch_size * (k + 1) = batch_size + batch_size * k := by ring
      rw [hm, List.take_add]

/-- C3: on a fresh connection, when inserting raises an exception, each of the
three loaders catches it, rolls the open transaction back (no pending rows
remain), prints the error, and re-raises the same exception; no retry, skip
or repair happens.  The failure is given as a decomposition of the rows into
a succeeding prefix, the first raising row `r`, and the rest. -/
theorem cargar_db_rollback_reraise (ins : Row → Option E) (c : PgConn Row)
    (pre post : List Row) (r : Row) (e : E) (hc : c.pending = [])
    (hpre : ∀ x ∈ pre, ins x = none) (hr : ins r = some e) :
    cargar_usuarios_db ins c (pre ++ r :: post) =
      (.error e, c.rollback, [.errorInsertar e]) ∧
    cargar_metricas_db ins c (pre ++ r :: post) =
      (.error e, c.rollback, [.errorInsertar e]) ∧
    (∃ tabla, cargar_transacciones_db ins c (pre ++ r :: post) =
      (.error e, ⟨tabla, []⟩, [.errorInsertar e])) := by
  refine ⟨?_, ?_, ?_⟩
  · have hb := execute_batch_error ins e r pre post c hpre hr
    simp [cargar_usuarios_db, hb, PgConn.rollback]
  · have hb := execute_batch_error ins e r pre post c hpre hr
    simp [cargar_metricas_db, hb, PgConn.rollback]
  · have hl := cargar_lotes_error_eq ins e r pre.length pre le_rfl post c hc
      hpre hr
    refine ⟨c.committed ++ pre.take (batch_size * (pre.length / batch_size)), ?_⟩
    simp [cargar_transacciones_db, hl, PgConn.rollback]

theorem cargar_db_rollback_reraise_witness :
    cargar_usuarios_db insFalla ⟨[], []⟩ ([0] ++ 1 :: [2]) =
      (.error 7, PgConn.rollback ⟨[], []⟩, [.errorInsertar 7]) :=
  (cargar_db_rollback_reraise insFalla ⟨[], []⟩ [0] [2] 1 7 rfl
    (by decide) rfl).1

/-- C10: `cargar_transacciones_db` is not atomic on failure: it commits after
every batch of `batch_size = 5000` rows, so when the first raising row lies
in batch `k` (`k = pre.length / batch_size` for a succeeding prefix `pre`),
the rollback only discards the uncommitted current batch and every row of the
`k` earlier batches remains in the table — whereas `cargar_usuarios_db` and
`cargar_metricas_db`, which commit once at the end, leave the table exactly
as it was. -/
theorem cargar_transacciones_no_atomico (ins : Row → Option E)
    (c : PgConn Row) (pre post : List Row) (r : Row) (e : E)
    (hc : c.pending = []) (hpre : ∀ x ∈ pre, ins x = none)
    (hr : ins r = some e) :
    cargar_transacciones_db ins c (pre ++ r :: post) =
      (.error e,
       ⟨c.committed ++
          ((lotes (pre ++ r :: post)).take (pre.length / batch_size)).flatten,
        []⟩,
       [.errorInsertar e]) ∧
    cargar_usuarios_db ins c (pre ++ r :: post) =
      (.error e, ⟨c.committed, []⟩, [.errorInsertar e]) ∧
    cargar_metricas_db ins c (pre ++ r :: post) =
      (.error e, ⟨c.committed, []⟩, [.errorInsertar e]) := by
  refine ⟨?_, ?_, ?_⟩
  · have hl := cargar_lotes_error_eq ins e r pre.length pre le_rfl post c hc
      hpre hr
    have hjoin :
        ((lotes (pre ++ r :: post)).take (pre.length / batch_size)).flatten
          = pre.take (batch_size * (pre.length / batch_size)) := by
      rw [lotes_flatten_take, List.take_append_eq_append_take,
        Nat.sub_eq_zero_of_le (Nat.mul_div_le pre.length batch_size)]
      simp
    simp [cargar_transacciones_db, hl, PgConn.rollback, hjoin]
  · have hb := execute_batch_error ins e r pre post c hpre hr
    simp [cargar_usuarios_db, hb, PgConn.rollback]
  · have hb := execute_batch_error ins e r pre post c hpre hr
    simp [cargar_metricas_db, hb, PgConn.rollback]

theorem cargar_transacciones_no_atomico_witness :
    cargar_transacciones_db insFalla ⟨[], []⟩ (List.replicate 5000 0 ++ [1]) =
      (.error 7, ⟨List.replicate 5000 0, []⟩, [.errorInsertar 7]) := by
  have h := (cargar_transacciones_no_atomico insFalla ⟨[], []⟩
    (List.replicate 5000 0) [] 1 7 rfl
    (fun x hx => by rw [List.eq_of_mem_replicate hx]; rfl) rfl).1
  have hlen : (List.replicate 5000 (0 : ℕ)).length = 5000 :=
    List.length_replicate 5000 0
  have hdiv : (List.replicate 5000 (0 : ℕ)).length / batch_size = 1 := by
    rw [hlen]; rfl
  have hm : batch_size * 1 = 5000 := rfl
  rw [h, hdiv, lotes_flatten_take, hm, List.take_append_eq_append_take,
    List.take_of_length_le (le_of_eq hlen), hlen]
  simp only [Nat.sub_self, List.take_zero, List.append_nil, List.nil_append]

end CryptoOps
